import Mathlib

/-!
Shallow embedding of `models/definitions/GAT.py` (pytorch-GAT), covering the four
GAT layer variants (IMP1..IMP4), the sparse neighborhood-aware softmax, the dense
masked softmax, the entry-time shape assertions, and the `GAT.__init__` layer-stack
construction.

Modelling conventions:
* Tensors are total functions over `Fin`-indexed dimensions; float arithmetic is
  idealized to exact real arithmetic (`ℝ`, `Real.exp`).
* A dense connectivity mask (0 on edges, -infinity elsewhere, line 373/428:
  `softmax(all_scores + connectivity_mask)`) is represented by a `Bool` adjacency
  `A : Fin N → Fin N → Bool`; in real semantics `exp (x + (-∞)) = 0`, so the masked
  softmax has numerator `if A i j then exp (score) else 0`.
* `self.dropout` (training mode) multiplies elementwise by a stochastic mask scaled
  by `1/(1-p)`; each call site receives its own mask, which we pass as an explicit
  function argument (`d0` for input features, `d1` for projected features, `d2` for
  attention weights).  Disabled dropout is the all-ones mask.
* `torch.max()` on an empty tensor raises, so the edge and head counts of the sparse
  variants are written in successor form `E+1`, `NH+1`.
* PyTorch `reshape`/`view` of a contiguous tensor reinterprets the row-major flat
  data; the index arithmetic below reproduces that reinterpretation exactly.
-/

noncomputable section

namespace GATModel

/-- LeakyReLU with the fixed 0.2 negative slope (`self.leakyReLU = nn.LeakyReLU(0.2)`,
GAT.py line 84). -/
def leakyReLU (x : ℝ) : ℝ := if 0 ≤ x then x else 0.2 * x

/-- The `1e-16` denominator floor of the sparse neighborhood softmax
(GAT.py line 307). -/
def gatEps : ℝ := 1 / 10 ^ 16

/-- Row-major flat index of `(h, f)` in a `(NH, FOUT)` block: the column of head `h`,
feature `f` in the flattened `NH * FOUT`-wide projection (`view(-1, NH, FOUT)`). -/
def flatIdx {NH FOUT : ℕ} (h : Fin NH) (f : Fin FOUT) : Fin (NH * FOUT) :=
  ⟨h.1 * FOUT + f.1, by
    have hf := f.2
    calc h.1 * FOUT + f.1 < h.1 * FOUT + FOUT := by omega
      _ = (h.1 + 1) * FOUT := by ring
      _ ≤ NH * FOUT := Nat.mul_le_mul_right _ h.2⟩

/-- Head component of a flattened `(NH * FOUT)` column index (inverse of `flatIdx`). -/
def unflatH {NH FOUT : ℕ} (o : Fin (NH * FOUT)) : Fin NH :=
  ⟨o.1 / FOUT, by
    have ho := o.2
    have hFOUT : 0 < FOUT := Nat.pos_of_ne_zero (by
      rintro rfl
      omega)
    exact (Nat.div_lt_iff_lt_mul hFOUT).mpr ho⟩

/-- Feature component of a flattened `(NH * FOUT)` column index (inverse of `flatIdx`). -/
def unflatF {NH FOUT : ℕ} (o : Fin (NH * FOUT)) : Fin FOUT :=
  ⟨o.1 % FOUT, by
    have ho := o.2
    have hFOUT : 0 < FOUT := Nat.pos_of_ne_zero (by
      rintro rfl
      omega)
    exact Nat.mod_lt _ hFOUT⟩

/-- Edge-list connectivity: `src e` / `trg e` are `edge_index[0][e]` / `edge_index[1][e]`
(`src_nodes_dim = 0`, `trg_nodes_dim = 1`, GAT.py lines 192-193). -/
structure EdgeIndex (N E : ℕ) where
  src : Fin E → Fin N
  trg : Fin E → Fin N

/-- The flattened linear projection followed by `view(-1, NH, FOUT)`
(`self.linear_proj(in_nodes_features).view(-1, self.num_of_heads, self.num_out_features)`,
GAT.py line 214/357).  `W k o` is entry `(k, o)` of the `(FIN, NH*FOUT)` map, i.e.
`linear_proj.weight` transposed. -/
def linearProjView {N FIN NH FOUT : ℕ} (W : Fin FIN → Fin (NH * FOUT) → ℝ)
    (X : Fin N → Fin FIN → ℝ) (n : Fin N) (h : Fin NH) (f : Fin FOUT) : ℝ :=
  ∑ k, X n k * W k (flatIdx h f)

/-- Per-node scalar score per head: `(nodes_features_proj * scoring_fn).sum(dim=-1)`
(GAT.py lines 221-222 and 363-364). -/
def scoreWith {N NH FOUT : ℕ} (a : Fin NH → Fin FOUT → ℝ)
    (proj : Fin N → Fin NH → Fin FOUT → ℝ) (n : Fin N) (h : Fin NH) : ℝ :=
  ∑ f, proj n h f * a h f

/-- Global maximum over all entries of the `(E, NH)` per-edge score tensor
(`scores_per_edge.max()`, GAT.py line 300). -/
def globalMax {E NH : ℕ} (s : Fin (E + 1) → Fin (NH + 1) → ℝ) : ℝ :=
  Finset.univ.sup' Finset.univ_nonempty (fun p : Fin (E + 1) × Fin (NH + 1) => s p.1 p.2)

/-- Exponentiated max-shifted per-edge scores
(`(scores_per_edge - scores_per_edge.max()).exp()`, GAT.py lines 300-301). -/
def expShiftedScores {E NH : ℕ} (s : Fin (E + 1) → Fin (NH + 1) → ℝ)
    (e : Fin (E + 1)) (h : Fin (NH + 1)) : ℝ :=
  Real.exp (s e h - globalMax s)

/-- `sum_edge_scores_neighborhood_aware` (GAT.py lines 310-325): scatter-add of the
exponentiated scores into a zero-initialized per-node accumulator indexed by the
target index.  Position `n` holds the sum of `expS e h` over all edges `e` with
`trg e = n`. -/
def sumEdgeScoresNeighborhoodAware {N E NH : ℕ} (expS : Fin (E + 1) → Fin (NH + 1) → ℝ)
    (trg : Fin (E + 1) → Fin N) (n : Fin N) (h : Fin (NH + 1)) : ℝ :=
  ∑ e, if trg e = n then expS e h else 0

/-- `neighborhood_aware_softmax` (GAT.py lines 282-308): shift by the global max,
exponentiate, divide by the target node's accumulated denominator plus the `1e-16`
floor.  (The final `unsqueeze(-1)` only adds a broadcast dimension and is dropped.) -/
def neighborhoodAwareSoftmax {N E NH : ℕ} (scores : Fin (E + 1) → Fin (NH + 1) → ℝ)
    (trg : Fin (E + 1) → Fin N) (e : Fin (E + 1)) (h : Fin (NH + 1)) : ℝ :=
  expShiftedScores scores e h /
    (sumEdgeScoresNeighborhoodAware (expShiftedScores scores) trg (trg e) h + gatEps)

/-- Dense masked softmax over the last axis: `softmax(all_scores + connectivity_mask)`
(GAT.py line 373/428) where the mask is 0 on edges and -infinity elsewhere; in real
semantics `exp (x + (-∞)) = 0`, so row `i` is the exp-normalization over the allowed
columns `{j | A i j}`. -/
def denseMaskedSoftmax {NH N : ℕ} (A : Fin N → Fin N → Bool)
    (scores : Fin NH → Fin N → Fin N → ℝ) (h : Fin NH) (i j : Fin N) : ℝ :=
  (if A i j then Real.exp (scores h i j) else 0) /
    ∑ k, if A i k then Real.exp (scores h i k) else 0

/-- Projected (and twice-dropped) node features shared by the sparse variants and IMP2:
dropout on the input (`in_nodes_features = self.dropout(in_nodes_features)`), flattened
linear projection viewed as `(N, NH, FOUT)`, dropout on the projection
(GAT.py lines 209-216 / 353-359). -/
def projectedFeatures {N FIN NH FOUT : ℕ} (W : Fin FIN → Fin (NH * FOUT) → ℝ)
    (d0 : Fin N → Fin FIN → ℝ) (d1 : Fin N → Fin NH → Fin FOUT → ℝ)
    (X : Fin N → Fin FIN → ℝ) (n : Fin N) (h : Fin NH) (f : Fin FOUT) : ℝ :=
  d1 n h f * linearProjView W (fun m k => d0 m k * X m k) n h f

/-- IMP3 per-edge raw attention scores (GAT.py lines 221-228): per-node source/target
scores, lifted to edges via `src`/`trg` index, summed and passed through LeakyReLU. -/
def imp3ScoresPerEdge {N E NH FIN FOUT : ℕ} (W : Fin FIN → Fin ((NH + 1) * FOUT) → ℝ)
    (aSrc aTrg : Fin (NH + 1) → Fin FOUT → ℝ)
    (d0 : Fin N → Fin FIN → ℝ) (d1 : Fin N → Fin (NH + 1) → Fin FOUT → ℝ)
    (X : Fin N → Fin FIN → ℝ) (ei : EdgeIndex N (E + 1))
    (e : Fin (E + 1)) (h : Fin (NH + 1)) : ℝ :=
  leakyReLU (scoreWith aSrc (projectedFeatures W d0 d1 X) (ei.src e) h +
    scoreWith aTrg (projectedFeatures W d0 d1 X) (ei.trg e) h)

/-- IMP3 aggregation (GAT.py lines 230-242): attention weights from the neighborhood
softmax, dropout (`d2`), elementwise weighting of the lifted projected features, then
`scatter_add_` into a zero-initialized `(N, NH, FOUT)` accumulator by target index. -/
def imp3Aggregate {N E NH FIN FOUT : ℕ} (W : Fin FIN → Fin ((NH + 1) * FOUT) → ℝ)
    (aSrc aTrg : Fin (NH + 1) → Fin FOUT → ℝ)
    (d0 : Fin N → Fin FIN → ℝ) (d1 : Fin N → Fin (NH + 1) → Fin FOUT → ℝ)
    (d2 : Fin (E + 1) → Fin (NH + 1) → ℝ)
    (X : Fin N → Fin FIN → ℝ) (ei : EdgeIndex N (E + 1))
    (n : Fin N) (h : Fin (NH + 1)) (f : Fin FOUT) : ℝ :=
  ∑ e, if ei.trg e = n then
    (d2 e h * neighborhoodAwareSoftmax (imp3ScoresPerEdge W aSrc aTrg d0 d1 X ei) ei.trg e h) *
      projectedFeatures W d0 d1 X (ei.src e) h f
  else 0

/-- `GATLayerImp3.forward` (GAT.py lines 203-259) with `concat=True`: aggregated heads
are flattened (`view(-1, NH*FOUT)`), the bias is added, the activation `σ` (ELU by
default, identity when `activation=None`) is applied, and the edge index is returned
unchanged as the second component. -/
def imp3Forward {N E NH FIN FOUT : ℕ} (W : Fin FIN → Fin ((NH + 1) * FOUT) → ℝ)
    (aSrc aTrg : Fin (NH + 1) → Fin FOUT → ℝ)
    (bias : Fin ((NH + 1) * FOUT) → ℝ) (σ : ℝ → ℝ)
    (d0 : Fin N → Fin FIN → ℝ) (d1 : Fin N → Fin (NH + 1) → Fin FOUT → ℝ)
    (d2 : Fin (E + 1) → Fin (NH + 1) → ℝ)
    (X : Fin N → Fin FIN → ℝ) (ei : EdgeIndex N (E + 1)) :
    (Fin N → Fin ((NH + 1) * FOUT) → ℝ) × EdgeIndex N (E + 1) :=
  (fun n o => σ (imp3Aggregate W aSrc aTrg d0 d1 d2 X ei n (unflatH o) (unflatF o) + bias o),
   ei)

/-- `GATLayerImp3.forward` with `concat=False`: mean over the head axis instead of the
flattening (`out_nodes_features.mean(dim=1)`, GAT.py line 253), `FOUT`-wide bias. -/
def imp3ForwardMean {N E NH FIN FOUT : ℕ} (W : Fin FIN → Fin ((NH + 1) * FOUT) → ℝ)
    (aSrc aTrg : Fin (NH + 1) → Fin FOUT → ℝ)
    (bias : Fin FOUT → ℝ) (σ : ℝ → ℝ)
    (d0 : Fin N → Fin FIN → ℝ) (d1 : Fin N → Fin (NH + 1) → Fin FOUT → ℝ)
    (d2 : Fin (E + 1) → Fin (NH + 1) → ℝ)
    (X : Fin N → Fin FIN → ℝ) (ei : EdgeIndex N (E + 1)) :
    (Fin N → Fin FOUT → ℝ) × EdgeIndex N (E + 1) :=
  (fun n f =>
    σ ((∑ h, imp3Aggregate W aSrc aTrg d0 d1 d2 X ei n h f) / (NH + 1) + bias f),
   ei)

/-- IMP2's target-score tensor after
`scores_target.reshape(self.num_of_heads, 1, num_of_nodes)` (GAT.py line 368).
`scores_target` has shape `(N, NH, 1)` with row-major flat layout
`flat[n * NH + h] = sT n h`; `reshape` reinterprets that flat data as `(NH, 1, N)`,
so entry `(h, j)` of the result is flat position `h * N + j`. -/
def imp2TrgScoresReshaped {N NH : ℕ} (sT : Fin N → Fin NH → ℝ)
    (h : Fin NH) (j : Fin N) : ℝ :=
  sT ⟨(h.1 * N + j.1) / NH, by
        have hj := j.2
        have hNH : 0 < NH := lt_of_le_of_lt (Nat.zero_le _) h.2
        have hidx : h.1 * N + j.1 < N * NH := by
          calc h.1 * N + j.1 < h.1 * N + N := by omega
            _ = (h.1 + 1) * N := by ring
            _ ≤ NH * N := Nat.mul_le_mul_right _ h.2
            _ = N * NH := Nat.mul_comm _ _
        exact (Nat.div_lt_iff_lt_mul hNH).mpr hidx⟩
     ⟨(h.1 * N + j.1) % NH, Nat.mod_lt _ (lt_of_le_of_lt (Nat.zero_le _) h.2)⟩

/-- IMP2's output tensor after
`out_nodes_features.reshape(num_of_nodes, self.num_of_heads, self.num_out_features)`
(GAT.py line 379).  The `bmm` result `b` has shape `(NH, N, FOUT)` with flat layout
`flat[(a * N + i) * FOUT + c] = b a i c`; `reshape` reinterprets it as `(N, NH, FOUT)`,
so entry `(n, h, f)` is flat position `(n * NH + h) * FOUT + f`. -/
def imp2OutReshaped {NH N FOUT : ℕ} (b : Fin NH → Fin N → Fin FOUT → ℝ)
    (n : Fin N) (h : Fin NH) (f : Fin FOUT) : ℝ :=
  let idx := (n.1 * NH + h.1) * FOUT + f.1
  b ⟨idx / (N * FOUT), by
      have hn := n.2
      have hh := h.2
      have hf := f.2
      have hNF : 0 < N * FOUT :=
        Nat.mul_pos (lt_of_le_of_lt (Nat.zero_le _) hn) (lt_of_le_of_lt (Nat.zero_le _) hf)
      have hidx : idx < NH * (N * FOUT) := by
        show (n.1 * NH + h.1) * FOUT + f.1 < NH * (N * FOUT)
        calc (n.1 * NH + h.1) * FOUT + f.1 < (n.1 * NH + h.1) * FOUT + FOUT := by omega
          _ = (n.1 * NH + h.1 + 1) * FOUT := by ring
          _ ≤ (N * NH) * FOUT := by
              apply Nat.mul_le_mul_right
              calc n.1 * NH + h.1 + 1 ≤ n.1 * NH + NH := by omega
                _ = (n.1 + 1) * NH := by ring
                _ ≤ N * NH := Nat.mul_le_mul_right _ hn
          _ = NH * (N * FOUT) := by ring
      exact (Nat.div_lt_iff_lt_mul hNF).mpr (by
        calc idx < NH * (N * FOUT) := hidx
          _ = NH * (N * FOUT) := rfl)⟩
    ⟨(idx / FOUT) % N, Nat.mod_lt _ (lt_of_le_of_lt (Nat.zero_le _) n.2)⟩
    ⟨idx % FOUT, Nat.mod_lt _ (lt_of_le_of_lt (Nat.zero_le _) f.2)⟩

/-- IMP2's dense per-head score matrix (GAT.py lines 363-372):
`scores_source.transpose(0, 1)` puts `sS i h` on the row axis `i` (broadcast over the
column axis `j`), while the reshaped target scores vary along `j`;
`all_scores = leakyReLU(scores_source + scores_target)`. -/
def imp2AllScores {N NH FIN FOUT : ℕ} (W : Fin FIN → Fin (NH * FOUT) → ℝ)
    (aSrc aTrg : Fin NH → Fin FOUT → ℝ)
    (d0 : Fin N → Fin FIN → ℝ) (d1 : Fin N → Fin NH → Fin FOUT → ℝ)
    (X : Fin N → Fin FIN → ℝ) (h : Fin NH) (i j : Fin N) : ℝ :=
  leakyReLU (scoreWith aSrc (projectedFeatures W d0 d1 X) i h +
    imp2TrgScoresReshaped (scoreWith aTrg (projectedFeatures W d0 d1 X)) h j)

/-- `GATLayerImp2.forward` (GAT.py lines 345-393) with `concat=True`.  The attention
coefficients are the masked softmax of `imp2AllScores`; the aggregation is
`torch.bmm(all_attention_coefficients, nodes_features_proj.transpose(0, 1))`, whose
`(NH, N, FOUT)` result is `reshape`d to `(N, NH, FOUT)` and flattened.  NOTE: the
source applies no dropout to the attention coefficients (there is no third
`self.dropout` call in this variant), so the attention-site mask `d2` is unused. -/
def imp2Forward {N NH FIN FOUT : ℕ} (W : Fin FIN → Fin (NH * FOUT) → ℝ)
    (aSrc aTrg : Fin NH → Fin FOUT → ℝ)
    (bias : Fin (NH * FOUT) → ℝ) (σ : ℝ → ℝ)
    (d0 : Fin N → Fin FIN → ℝ) (d1 : Fin N → Fin NH → Fin FOUT → ℝ)
    (d2 : Fin NH → Fin N → Fin N → ℝ)
    (X : Fin N → Fin FIN → ℝ) (A : Fin N → Fin N → Bool) :
    (Fin N → Fin (NH * FOUT) → ℝ) × (Fin N → Fin N → Bool) :=
  let att := denseMaskedSoftmax A (imp2AllScores W aSrc aTrg d0 d1 X)
  let bmmOut := fun (h : Fin NH) (i : Fin N) (f : Fin FOUT) =>
    ∑ j, att h i j * projectedFeatures W d0 d1 X j h f
  (fun n o => σ (imp2OutReshaped bmmOut n (unflatH o) (unflatF o) + bias o), A)

/-- `GATLayerImp2.forward` with `concat=False`: mean over the head axis of the
reshaped `(N, NH, FOUT)` output (GAT.py line 387), `FOUT`-wide bias. -/
def imp2ForwardMean {N NH FIN FOUT : ℕ} (W : Fin FIN → Fin (NH * FOUT) → ℝ)
    (aSrc aTrg : Fin NH → Fin FOUT → ℝ)
    (bias : Fin FOUT → ℝ) (σ : ℝ → ℝ)
    (d0 : Fin N → Fin FIN → ℝ) (d1 : Fin N → Fin NH → Fin FOUT → ℝ)
    (d2 : Fin NH → Fin N → Fin N → ℝ)
    (X : Fin N → Fin FIN → ℝ) (A : Fin N → Fin N → Bool) :
    (Fin N → Fin FOUT → ℝ) × (Fin N → Fin N → Bool) :=
  let att := denseMaskedSoftmax A (imp2AllScores W aSrc aTrg d0 d1 X)
  let bmmOut := fun (h : Fin NH) (i : Fin N) (f : Fin FOUT) =>
    ∑ j, att h i j * projectedFeatures W d0 d1 X j h f
  (fun n f => σ ((∑ h, imp2OutReshaped bmmOut n h f) / NH + bias f), A)

/-- IMP1's projected (and twice-dropped) features (GAT.py lines 412-418):
`torch.matmul(in_nodes_features.unsqueeze(0), self.linear_proj)` with the per-head
`(NH, FIN, FOUT)` weight tensor, giving shape `(NH, N, FOUT)`. -/
def imp1ProjectedFeatures {N FIN NH FOUT : ℕ} (W : Fin NH → Fin FIN → Fin FOUT → ℝ)
    (d0 : Fin N → Fin FIN → ℝ) (d1 : Fin NH → Fin N → Fin FOUT → ℝ)
    (X : Fin N → Fin FIN → ℝ) (h : Fin NH) (n : Fin N) (f : Fin FOUT) : ℝ :=
  d1 h n f * ∑ k, (d0 n k * X n k) * W h k f

/-- IMP1's dense per-head score matrix (GAT.py lines 422-427): per-node scores via
`torch.bmm` with the `(NH, FOUT, 1)` scoring tensors, then
`leakyReLU(scores_source + scores_target.transpose(1, 2))` — a genuine transpose,
unlike IMP2's reshape. -/
def imp1AllScores {N FIN NH FOUT : ℕ} (W : Fin NH → Fin FIN → Fin FOUT → ℝ)
    (aSrc aTrg : Fin NH → Fin FOUT → ℝ)
    (d0 : Fin N → Fin FIN → ℝ) (d1 : Fin NH → Fin N → Fin FOUT → ℝ)
    (X : Fin N → Fin FIN → ℝ) (h : Fin NH) (i j : Fin N) : ℝ :=
  leakyReLU ((∑ f, imp1ProjectedFeatures W d0 d1 X h i f * aSrc h f) +
    (∑ f, imp1ProjectedFeatures W d0 d1 X h j f * aTrg h f))

/-- `GATLayerImp1.forward` (GAT.py lines 404-448) with `concat=True`: masked softmax,
`torch.bmm(all_attention_coefficients, nodes_features_proj)`, `transpose(0, 1)` to
`(N, NH, FOUT)` and flattening.  As in IMP2, no dropout is applied to the attention
coefficients, so the attention-site mask `d2` is unused. -/
def imp1Forward {N NH FIN FOUT : ℕ} (W : Fin NH → Fin FIN → Fin FOUT → ℝ)
    (aSrc aTrg : Fin NH → Fin FOUT → ℝ)
    (bias : Fin (NH * FOUT) → ℝ) (σ : ℝ → ℝ)
    (d0 : Fin N → Fin FIN → ℝ) (d1 : Fin NH → Fin N → Fin FOUT → ℝ)
    (d2 : Fin NH → Fin N → Fin N → ℝ)
    (X : Fin N → Fin FIN → ℝ) (A : Fin N → Fin N → Bool) :
    (Fin N → Fin (NH * FOUT) → ℝ) × (Fin N → Fin N → Bool) :=
  let att := denseMaskedSoftmax A (imp1AllScores W aSrc aTrg d0 d1 X)
  let bmmOut := fun (h : Fin NH) (i : Fin N) (f : Fin FOUT) =>
    ∑ j, att h i j * imp1ProjectedFeatures W d0 d1 X h j f
  (fun n o => σ (bmmOut (unflatH o) n (unflatF o) + bias o), A)

/-- `GATLayerImp4.forward` (GAT.py lines 135-170).  The body applies dropout to the
input, projects with `torch.mm`, applies dropout again, computes the per-edge scores
(the `100000`-iteration timing loop recomputes the same pure values and is modelled by
the single computation), applies the neighborhood softmax and the attention dropout —
and then falls off the end: there is no `return` statement, so the call evaluates to
Python `None`, modelled as `none`. -/
def imp4Forward {N E NH FIN FOUT : ℕ} (W : Fin FIN → Fin ((NH + 1) * FOUT) → ℝ)
    (aSrc aTrg : Fin (NH + 1) → Fin FOUT → ℝ)
    (d0 : Fin N → Fin FIN → ℝ) (d1 : Fin N → Fin (NH + 1) → Fin FOUT → ℝ)
    (d2 : Fin (E + 1) → Fin (NH + 1) → ℝ)
    (X : Fin N → Fin FIN → ℝ) (ei : EdgeIndex N (E + 1)) :
    Option ((Fin N → Fin ((NH + 1) * FOUT) → ℝ) × EdgeIndex N (E + 1)) :=
  let scoresPerEdge := imp3ScoresPerEdge W aSrc aTrg d0 d1 X ei
  let _attDropped := fun (e : Fin (E + 1)) (h : Fin (NH + 1)) =>
    d2 e h * neighborhoodAwareSoftmax scoresPerEdge ei.trg e h
  none

/-- Entry-time validation of the dense variants (GAT.py lines 346-349 and 405-408):
`assert connectivity_mask.shape == (num_of_nodes, num_of_nodes)` with the
expected-vs-actual message of the source's f-string. -/
def denseForwardEntryCheck (numOfNodes : ℕ) (maskShape : ℕ × ℕ) : Except String Unit :=
  if maskShape = (numOfNodes, numOfNodes) then Except.ok ()
  else
    let r := maskShape.1
    let c := maskShape.2
    Except.error
      s!"Expected connectivity matrix with shape=({numOfNodes},{numOfNodes}), got shape=({r},{c})."

/-- Entry-time validation of the sparse variants: `GATLayerImp3.forward` /
`GATLayerImp4.forward` (GAT.py lines 135-141, 203-209) unpack `(in_nodes_features,
edge_index)` and proceed directly to dropout and projection — there is no assert and
no comparison of the edge index against the node count, so every input passes. -/
def sparseForwardEntryCheck (_numOfNodes : ℕ) (_edgeIndex : List (ℕ × ℕ)) :
    Except String Unit :=
  Except.ok ()

/-- One layer's constructor arguments as computed by `GAT.__init__`
(GAT.py lines 23-26): `(num_in_features, num_out_features, num_of_heads)` plus the
`concat` flag and whether the default ELU activation is kept (`activation=None` for
the final layer). -/
structure LayerSpec where
  inFeatures : ℕ
  outFeatures : ℕ
  numHeads : ℕ
  concat : Bool
  eluActivation : Bool
deriving DecidableEq, Repr

/-- Python list indexing `l[i]`: a negative `i` wraps to `len(l) + i`; an index out of
`[0, len(l))` after wrapping raises `IndexError`. -/
def pyGet (l : List ℕ) (i : ℤ) : Except String ℕ :=
  let j : ℤ := if i < 0 then (l.length : ℤ) + i else i
  if h : 0 ≤ j ∧ j < (l.length : ℤ) then Except.ok (l.get ⟨j.toNat, by omega⟩)
  else Except.error "IndexError: list index out of range"

/-- The hidden-layer list comprehension of `GAT.__init__` (GAT.py line 24):
`[GATLayer(nfpl[i-1] * nhpl[i-2], nfpl[i], nhpl[i-1], dropout_prob=dropout)
  for i in range(1, num_of_layers)]`,
with the arguments of each call evaluated left to right (note the Python negative
index `nhpl[i-2]` at `i = 1` wraps around to the LAST entry of `nhpl`). -/
def gatHiddenSpecs (numOfLayers : ℕ) (nhpl nfpl : List ℕ) :
    Except String (List LayerSpec) :=
  (List.range' 1 (numOfLayers - 1)).mapM (fun i => do
    let a ← pyGet nfpl ((i : ℤ) - 1)
    let b ← pyGet nhpl ((i : ℤ) - 2)
    let c ← pyGet nfpl (i : ℤ)
    let d ← pyGet nhpl ((i : ℤ) - 1)
    Except.ok { inFeatures := a * b, outFeatures := c, numHeads := d,
                concat := true, eluActivation := true })

/-- `GAT.__init__` (GAT.py lines 14-26), modelled as the sequence of layer specs the
constructor hands to `nn.Sequential`.  The first positional argument is
`*([list comprehension] if num_of_layers >= 2 else nn.Identity())`: when
`num_of_layers < 2` the conditional yields the `nn.Identity()` module
(`Sum.inr ()`).  Python then evaluates the final `GATLayer(nfpl[-2] * nhpl[-2],
nfpl[-1], nhpl[-1], ..., concat=False, activation=None)` argument (its index
expressions left to right, raising `IndexError` if a list is too short) and only then
performs the call, where unpacking a non-iterable `nn.Identity` raises `TypeError`. -/
def gatInitLayerSpecs (numOfLayers : ℕ) (nhpl nfpl : List ℕ) :
    Except String (List LayerSpec) := do
  let firstArg : Sum (List LayerSpec) Unit ←
    if 2 ≤ numOfLayers then Sum.inl <$> gatHiddenSpecs numOfLayers nhpl nfpl
    else Except.ok (Sum.inr ())
  let a ← pyGet nfpl (-2)
  let b ← pyGet nhpl (-2)
  let c ← pyGet nfpl (-1)
  let d ← pyGet nhpl (-1)
  let finalSpec : LayerSpec :=
    { inFeatures := a * b, outFeatures := c, numHeads := d,
      concat := false, eluActivation := false }
  match firstArg with
  | Sum.inl layers => Except.ok (layers ++ [finalSpec])
  | Sum.inr _ => Except.error "TypeError: Value after * must be an iterable, not Identity"

/-! Concrete instances used by counterexamples, failing-input evaluations and
witnesses. -/

/-- Two nodes with one input feature each: node 0 carries `0`, node 1 carries `1`. -/
def exX2 : Fin 2 → Fin 1 → ℝ := fun n _ => if n = 0 then 0 else 1

/-- All-ones `1×1` parameter matrix (used as flattened projection and source-scoring
vector with one head and one output feature). -/
def exOnes11 : Fin 1 → Fin 1 → ℝ := fun _ _ => 1

/-- All-zeros `1×1` parameter matrix. -/
def exZeros11 : Fin 1 → Fin 1 → ℝ := fun _ _ => 0

/-- Zero bias for one head and one output feature. -/
def exBias1 : Fin 1 → ℝ := fun _ => 0

/-- Constant-one bias for one head and one output feature. -/
def exBiasOne1 : Fin 1 → ℝ := fun _ => 1

/-- Full dense connectivity mask on two nodes (every entry 0, i.e. every pair is an
edge, self-loops included). -/
def exFullMask2 : Fin 2 → Fin 2 → Bool := fun _ _ => true

/-- Edge list equivalent to `exFullMask2`: all four directed edges on two nodes. -/
def exEdgeIndexFull2 : EdgeIndex 2 4 := ⟨![0, 0, 1, 1], ![0, 1, 0, 1]⟩

/-- A single self-loop at node 0; node 1 appears in neither index row. -/
def exEdgeSelfLoop0 : EdgeIndex 2 1 := ⟨fun _ => 0, fun _ => 0⟩

/-- One node with feature value 1. -/
def exX1 : Fin 1 → Fin 1 → ℝ := fun _ _ => 1

/-- All-ones per-head projection tensor for two heads (IMP1 layout `(NH, FIN, FOUT)`). -/
def exW2heads : Fin 2 → Fin 1 → Fin 1 → ℝ := fun _ _ _ => 1

/-- All-ones flattened projection for two heads (IMP2 layout `(FIN, NH*FOUT)`); its
per-head slices are exactly `exW2heads`. -/
def exWflat2 : Fin 1 → Fin 2 → ℝ := fun _ _ => 1

/-- Zero source-scoring vectors for two heads. -/
def exASrc2 : Fin 2 → Fin 1 → ℝ := fun _ _ => 0

/-- Target-scoring vectors for two heads: head 0 scores by the (single) projected
feature, head 1 scores zero. -/
def exATrg2 : Fin 2 → Fin 1 → ℝ := fun h _ => if h = 0 then 1 else 0

/-- Zero bias for two concatenated heads. -/
def exBias2 : Fin 2 → ℝ := fun _ => 0

/-- Full dense connectivity mask on one node. -/
def exMask1 : Fin 1 → Fin 1 → Bool := fun _ _ => true

/-- Constant-zero per-edge scores on a single-edge, single-head graph. -/
def exScores1 : Fin 1 → Fin 1 → ℝ := fun _ _ => 0

/-- Target index of a single self-loop on a one-node graph. -/
def exTrg1 : Fin 1 → Fin 1 := fun _ => 0

/-! Claim theorems. -/

/-- C8: subtracting any constant from all per-edge raw scores before the sparse
neighborhood-aware softmax leaves the attention weights unchanged — exactly, because
the softmax first subtracts the global maximum, which shifts by the same constant. -/
theorem c8_shift_invariance {N E NH : ℕ} (scores : Fin (E + 1) → Fin (NH + 1) → ℝ)
    (trg : Fin (E + 1) → Fin N) (c : ℝ) :
    neighborhoodAwareSoftmax (fun e h => scores e h - c) trg =
      neighborhoodAwareSoftmax scores trg := by
  have hmax : globalMax (fun e h => scores e h - c) = globalMax scores - c := by
    unfold globalMax
    apply le_antisymm
    · apply Finset.sup'_le
      intro p _
      have hp : scores p.1 p.2 ≤ Finset.univ.sup' Finset.univ_nonempty
          (fun q : Fin (E + 1) × Fin (NH + 1) => scores q.1 q.2) :=
        Finset.le_sup' (fun q : Fin (E + 1) × Fin (NH + 1) => scores q.1 q.2)
          (Finset.mem_univ p)
      simpa using sub_le_sub_right hp c
    · rw [sub_le_iff_le_add]
      apply Finset.sup'_le
      intro p _
      have hp : scores p.1 p.2 - c ≤ Finset.univ.sup' Finset.univ_nonempty
          (fun q : Fin (E + 1) × Fin (NH + 1) => scores q.1 q.2 - c) :=
        Finset.le_sup' (fun q : Fin (E + 1) × Fin (NH + 1) => scores q.1 q.2 - c)
          (Finset.mem_univ p)
      linarith
  funext e h
  unfold neighborhoodAwareSoftmax expShiftedScores sumEdgeScoresNeighborhoodAware
  simp only [hmax, sub_sub_sub_cancel_right]

/-- C3 counterexample: on a one-node graph with a single self-loop edge and score 0,
the attention weights of the (unique) edge targeting node 0 sum to
`1 / (1 + 1e-16)`, which is strictly less than 1: the `1e-16` denominator floor
makes the neighborhood sums fall short of exactly 1. -/
theorem c3_sum_ne_one :
    (∑ e, if exTrg1 e = 0 then neighborhoodAwareSoftmax exScores1 exTrg1 e 0 else 0) ≠ 1 := by
  have hmax : globalMax exScores1 = 0 := by
    unfold globalMax
    apply le_antisymm
    · apply Finset.sup'_le
      intro p _
      simp [exScores1]
    · calc (0 : ℝ) = exScores1 0 0 := by simp [exScores1]
        _ ≤ _ := Finset.le_sup' (fun q : Fin 1 × Fin 1 => exScores1 q.1 q.2)
            (Finset.mem_univ ((0 : Fin 1), (0 : Fin 1)))
  unfold neighborhoodAwareSoftmax expShiftedScores sumEdgeScoresNeighborhoodAware
  simp only [hmax, exScores1, exTrg1, sub_zero, Real.exp_zero, Fin.sum_univ_one, if_pos rfl]
  norm_num [gatEps]

/-- C3 amended: every attention weight produced by the sparse neighborhood softmax is
non-negative, and for every node `i` and head `h` the weights of the edges targeting
`i` sum to `D / (D + 1e-16)` where `D` is node `i`'s accumulated exponentiated-score
denominator — strictly below 1 by the epsilon floor (and exactly the claimed 1 only
in the epsilon-free idealization). -/
theorem c3_amended_softmax_normalization {N E NH : ℕ}
    (scores : Fin (E + 1) → Fin (NH + 1) → ℝ) (trg : Fin (E + 1) → Fin N)
    (i : Fin N) (h : Fin (NH + 1)) :
    (∀ e, 0 ≤ neighborhoodAwareSoftmax scores trg e h) ∧
    (∑ e, if trg e = i then neighborhoodAwareSoftmax scores trg e h else 0) =
      sumEdgeScoresNeighborhoodAware (expShiftedScores scores) trg i h /
        (sumEdgeScoresNeighborhoodAware (expShiftedScores scores) trg i h + gatEps) := by
  constructor
  · intro e
    apply div_nonneg (Real.exp_pos _).le
    apply add_nonneg
    · apply Finset.sum_nonneg
      intro x _
      split
      · exact (Real.exp_pos _).le
      · exact le_rfl
    · norm_num [gatEps]
  · have hcongr : ∀ e : Fin (E + 1),
        (if trg e = i then neighborhoodAwareSoftmax scores trg e h else 0) =
        (if trg e = i then expShiftedScores scores e h else 0) /
          (sumEdgeScoresNeighborhoodAware (expShiftedScores scores) trg i h + gatEps) := by
      intro e
      by_cases he : trg e = i
      · simp [he, neighborhoodAwareSoftmax]
      · simp [he]
    rw [Finset.sum_congr rfl (fun e _ => hcongr e), ← Finset.sum_div]
    rfl

/-- C2 counterexample: `GATLayerImp4.forward` has no `return` statement, so on any
input — here a one-node graph with a self-loop — it returns Python `None` rather than
a `(features, connectivity)` pair. -/
theorem c2_imp4_returns_none :
    imp4Forward exOnes11 exOnes11 exOnes11 (fun _ _ => 1) (fun _ _ _ => 1) (fun _ _ => 1)
      exX1 ⟨exTrg1, exTrg1⟩ = none := rfl

/-- C2 amended: the IMP1, IMP2 and IMP3 forwards (in both the concatenating and the
head-averaging configuration) return the input connectivity object unchanged, with
the same representation type, as the second component of their output pair; IMP4's
forward instead returns `None` (see the counterexample). -/
theorem c2_amended_connectivity_passthrough :
    (∀ (N NH FIN FOUT : ℕ) (W : Fin NH → Fin FIN → Fin FOUT → ℝ)
      (aSrc aTrg : Fin NH → Fin FOUT → ℝ) (bias : Fin (NH * FOUT) → ℝ) (σ : ℝ → ℝ)
      (d0 : Fin N → Fin FIN → ℝ) (d1 : Fin NH → Fin N → Fin FOUT → ℝ)
      (d2 : Fin NH → Fin N → Fin N → ℝ) (X : Fin N → Fin FIN → ℝ)
      (A : Fin N → Fin N → Bool),
      (imp1Forward W aSrc aTrg bias σ d0 d1 d2 X A).2 = A) ∧
    (∀ (N NH FIN FOUT : ℕ) (W : Fin FIN → Fin (NH * FOUT) → ℝ)
      (aSrc aTrg : Fin NH → Fin FOUT → ℝ) (bias : Fin (NH * FOUT) → ℝ)
      (biasM : Fin FOUT → ℝ) (σ : ℝ → ℝ)
      (d0 : Fin N → Fin FIN → ℝ) (d1 : Fin N → Fin NH → Fin FOUT → ℝ)
      (d2 : Fin NH → Fin N → Fin N → ℝ) (X : Fin N → Fin FIN → ℝ)
      (A : Fin N → Fin N → Bool),
      (imp2Forward W aSrc aTrg bias σ d0 d1 d2 X A).2 = A ∧
      (imp2ForwardMean W aSrc aTrg biasM σ d0 d1 d2 X A).2 = A) ∧
    (∀ (N E NH FIN FOUT : ℕ) (W : Fin FIN → Fin ((NH + 1) * FOUT) → ℝ)
      (aSrc aTrg : Fin (NH + 1) → Fin FOUT → ℝ) (bias : Fin ((NH + 1) * FOUT) → ℝ)
      (biasM : Fin FOUT → ℝ) (σ : ℝ → ℝ)
      (d0 : Fin N → Fin FIN → ℝ) (d1 : Fin N → Fin (NH + 1) → Fin FOUT → ℝ)
      (d2 : Fin (E + 1) → Fin (NH + 1) → ℝ) (X : Fin N → Fin FIN → ℝ)
      (ei : EdgeIndex N (E + 1)),
      (imp3Forward W aSrc aTrg bias σ d0 d1 d2 X ei).2 = ei ∧
      (imp3ForwardMean W aSrc aTrg biasM σ d0 d1 d2 X ei).2 = ei) :=
  ⟨by intros; rfl, by intros; exact ⟨rfl, rfl⟩, by intros; exact ⟨rfl, rfl⟩⟩

/-- C10: constructing the `GAT` network with `num_of_layers = 1` always fails, for
every choice of head and feature lists: either one of the Python negative-index
lookups `nfpl[-2]` / `nhpl[-2]` raises `IndexError` (lists shorter than 2), or the
call reaches `nn.Sequential(*nn.Identity(), ...)` and unpacking the non-iterable
`nn.Identity` module raises `TypeError`. -/
theorem c10_single_layer_always_fails (nhpl nfpl : List ℕ) :
    ∃ msg, gatInitLayerSpecs 1 nhpl nfpl = Except.error msg := by
  unfold gatInitLayerSpecs
  rw [if_neg (by omega)]
  rcases h1 : pyGet nfpl (-2) with m1 | a1
  · exact ⟨m1, by simp [h1, bind, Except.bind]⟩
  · rcases h2 : pyGet nhpl (-2) with m2 | a2
    · exact ⟨m2, by simp [h1, h2, bind, Except.bind]⟩
    · rcases h3 : pyGet nfpl (-1) with m3 | a3
      · exact ⟨m3, by simp [h1, h2, h3, bind, Except.bind]⟩
      · rcases h4 : pyGet nhpl (-1) with m4 | a4
        · exact ⟨m4, by simp [h1, h2, h3, h4, bind, Except.bind]⟩
        · exact ⟨"TypeError: Value after * must be an iterable, not Identity",
            by simp [h1, h2, h3, h4, bind, Except.bind]⟩

/-- C9 failing input: `GAT(num_of_layers=2, num_heads_per_layer=[8,8],
num_features_per_layer=[3,4,5])`.  The first layer is constructed with
`in_features = nfpl[0] * nhpl[-1] = 3 * 8 = 24` — the Python index `nhpl[i-2]` wraps
around to the LAST head count at `i = 1` — not the raw input width 3 that the claim
(and the spec's stacking rule) requires.  The remaining layer (`in_features = 4 * 8`,
`concat=False`, no activation) does follow the claimed rule. -/
theorem c9_first_layer_width :
    gatInitLayerSpecs 2 [8, 8] [3, 4, 5] =
      Except.ok
        [{ inFeatures := 24, outFeatures := 4, numHeads := 8,
           concat := true, eluActivation := true },
         { inFeatures := 32, outFeatures := 5, numHeads := 8,
           concat := false, eluActivation := false }] := by
  rfl

/-- C6 counterexample: the sparse variant's forward performs no entry validation at
all: an edge index mentioning node 5 on a 1-node graph is accepted (no
shape-mismatch error is raised at entry; the computation simply proceeds). -/
theorem c6_sparse_no_entry_check :
    sparseForwardEntryCheck 1 [(0, 5)] = Except.ok () := rfl

/-- C6 amended: only the dense variants (IMP1, IMP2) validate at entry, asserting the
mask shape equals `(N, N)` and reporting expected vs. actual on mismatch; the sparse
variants (IMP3, IMP4) perform no entry validation of the connectivity against the
node count. -/
theorem c6_amended_entry_validation (n r c : ℕ) (ei : List (ℕ × ℕ)) :
    denseForwardEntryCheck n (n, n) = Except.ok () ∧
    ((r, c) ≠ (n, n) → ∃ msg, denseForwardEntryCheck n (r, c) = Except.error msg) ∧
    sparseForwardEntryCheck n ei = Except.ok () := by
  refine ⟨by simp [denseForwardEntryCheck], fun hne => ?_, rfl⟩
  unfold denseForwardEntryCheck
  rw [if_neg hne]
  exact ⟨_, rfl⟩

/-- Witness for the C6 amended theorem at `N = 2` against a `3×3` mask. -/
theorem c6_amended_entry_validation_witness :
    ((3, 3) ≠ (2, 2) ∧
      ∃ msg, denseForwardEntryCheck 2 (3, 3) = Except.error msg) ∧
    denseForwardEntryCheck 2 (2, 2) = Except.ok () ∧
    sparseForwardEntryCheck 2 [(0, 1)] = Except.ok () :=
  ⟨⟨by decide, (c6_amended_entry_validation 2 3 3 [(0, 1)]).2.1 (by decide)⟩,
   (c6_amended_entry_validation 2 3 3 [(0, 1)]).1,
   (c6_amended_entry_validation 2 3 3 [(0, 1)]).2.2⟩

/-- C5 counterexample: `GATLayerImp2.forward` applies dropout only twice (input
features, projected features) and never to the attention coefficients.  On a one-node
graph, replacing the attention-site dropout mask by the all-zeros mask changes nothing
(the two calls are literally the same computation), yet the output is the nonzero
value 1 — if the claimed third dropout application existed, the all-zeros mask would
have forced the aggregated output to 0. -/
theorem c5_imp2_no_attention_dropout :
    imp2Forward exOnes11 exZeros11 exZeros11 exBias1 id (fun _ _ => 1) (fun _ _ _ => 1)
        (fun _ _ _ => 0) exX1 exMask1 =
      imp2Forward exOnes11 exZeros11 exZeros11 exBias1 id (fun _ _ => 1) (fun _ _ _ => 1)
        (fun _ _ _ => 1) exX1 exMask1 ∧
    (imp2Forward exOnes11 exZeros11 exZeros11 exBias1 id (fun _ _ => 1) (fun _ _ _ => 1)
        (fun _ _ _ => 0) exX1 exMask1).1 0 0 ≠ 0 := by
  refine ⟨rfl, ?_⟩
  simp [imp2Forward, imp2OutReshaped, imp2AllScores, imp2TrgScoresReshaped,
    denseMaskedSoftmax, projectedFeatures, linearProjView, scoreWith, leakyReLU,
    unflatH, unflatF, flatIdx, exOnes11, exZeros11, exBias1, exX1, exMask1,
    Fin.sum_univ_one]

/-- C5 amended: IMP3 (and IMP4) apply dropout three times per forward call — input
features, projected features, and attention weights before aggregation — but IMP1 and
IMP2 apply it only twice: their outputs are independent of the attention-site mask,
whereas zeroing IMP3's attention-site mask collapses the aggregation, leaving only
`activation(bias)`. -/
theorem c5_amended_dropout_sites :
    (∀ (N NH FIN FOUT : ℕ) (W : Fin NH → Fin FIN → Fin FOUT → ℝ)
      (aSrc aTrg : Fin NH → Fin FOUT → ℝ) (bias : Fin (NH * FOUT) → ℝ) (σ : ℝ → ℝ)
      (d0 : Fin N → Fin FIN → ℝ) (d1 : Fin NH → Fin N → Fin FOUT → ℝ)
      (d2 d2' : Fin NH → Fin N → Fin N → ℝ) (X : Fin N → Fin FIN → ℝ)
      (A : Fin N → Fin N → Bool),
      imp1Forward W aSrc aTrg bias σ d0 d1 d2 X A =
        imp1Forward W aSrc aTrg bias σ d0 d1 d2' X A) ∧
    (∀ (N NH FIN FOUT : ℕ) (W : Fin FIN → Fin (NH * FOUT) → ℝ)
      (aSrc aTrg : Fin NH → Fin FOUT → ℝ) (bias : Fin (NH * FOUT) → ℝ) (σ : ℝ → ℝ)
      (d0 : Fin N → Fin FIN → ℝ) (d1 : Fin N → Fin NH → Fin FOUT → ℝ)
      (d2 d2' : Fin NH → Fin N → Fin N → ℝ) (X : Fin N → Fin FIN → ℝ)
      (A : Fin N → Fin N → Bool),
      imp2Forward W aSrc aTrg bias σ d0 d1 d2 X A =
        imp2Forward W aSrc aTrg bias σ d0 d1 d2' X A) ∧
    (∀ (N E NH FIN FOUT : ℕ) (W : Fin FIN → Fin ((NH + 1) * FOUT) → ℝ)
      (aSrc aTrg : Fin (NH + 1) → Fin FOUT → ℝ) (bias : Fin ((NH + 1) * FOUT) → ℝ)
      (σ : ℝ → ℝ) (d0 : Fin N → Fin FIN → ℝ) (d1 : Fin N → Fin (NH + 1) → Fin FOUT → ℝ)
      (X : Fin N → Fin FIN → ℝ) (ei : EdgeIndex N (E + 1)) (n : Fin N)
      (o : Fin ((NH + 1) * FOUT)),
      (imp3Forward W aSrc aTrg bias σ d0 d1 (fun _ _ => 0) X ei).1 n o = σ (bias o)) := by
  refine ⟨by intros; rfl, by intros; rfl, ?_⟩
  intro N E NH FIN FOUT W aSrc aTrg bias σ d0 d1 X ei n o
  simp [imp3Forward, imp3Aggregate]

/-- C7 counterexample: node 1 appears in neither index row of `exEdgeSelfLoop0`, yet
with a nonzero bias (a legitimate trained-parameter value) its forward output row is
`activation(bias) = 1`, not the all-zero vector the claim asserts: only the
pre-bias/pre-activation aggregated row is zero. -/
theorem c7_isolated_node_bias_output :
    (imp3Forward exOnes11 exZeros11 exZeros11 exBiasOne1 id (fun _ _ => 1) (fun _ _ _ => 1)
        (fun _ _ => 1) exX2 exEdgeSelfLoop0).1 1 0 ≠ 0 := by
  simp [imp3Forward, imp3Aggregate, exEdgeSelfLoop0, exBiasOne1, Fin.sum_univ_one]

/-- C7 amended: forward does not fail on a zero-in-degree node `i` (the epsilon floor
keeps every division defined); `i`'s aggregated (pre-bias, pre-activation) row is
exactly zero, and the forward output row is `activation(bias)` — the all-zero vector
whenever the bias is zero (its initialized value) and the activation fixes 0 (as ELU
and the identity do). -/
theorem c7_amended_isolated_node {N E NH FIN FOUT : ℕ}
    (W : Fin FIN → Fin ((NH + 1) * FOUT) → ℝ) (aSrc aTrg : Fin (NH + 1) → Fin FOUT → ℝ)
    (bias : Fin ((NH + 1) * FOUT) → ℝ) (σ : ℝ → ℝ)
    (d0 : Fin N → Fin FIN → ℝ) (d1 : Fin N → Fin (NH + 1) → Fin FOUT → ℝ)
    (d2 : Fin (E + 1) → Fin (NH + 1) → ℝ) (X : Fin N → Fin FIN → ℝ)
    (ei : EdgeIndex N (E + 1)) (i : Fin N) (hi : ∀ e, ei.trg e ≠ i) :
    (∀ h f, imp3Aggregate W aSrc aTrg d0 d1 d2 X ei i h f = 0) ∧
    (∀ o, (imp3Forward W aSrc aTrg bias σ d0 d1 d2 X ei).1 i o = σ (bias o)) := by
  have hagg : ∀ h f, imp3Aggregate W aSrc aTrg d0 d1 d2 X ei i h f = 0 := by
    intro h f
    unfold imp3Aggregate
    exact Finset.sum_eq_zero (fun e _ => if_neg (hi e))
  exact ⟨hagg, fun o => by simp [imp3Forward, hagg]⟩

/-- Witness for the C7 amended theorem: the isolated node 1 of `exEdgeSelfLoop0`, with
zero bias and identity activation, gets the output row value `id (exBias1 0) = 0`. -/
theorem c7_amended_isolated_node_witness :
    (imp3Forward exOnes11 exZeros11 exZeros11 exBias1 id (fun _ _ => 1) (fun _ _ _ => 1)
        (fun _ _ => 1) exX2 exEdgeSelfLoop0).1 1 0 = 0 := by
  have hi : ∀ e : Fin 1, exEdgeSelfLoop0.trg e ≠ 1 := fun e => by
    simp [exEdgeSelfLoop0]
  have h := (c7_amended_isolated_node exOnes11 exZeros11 exZeros11 exBias1 id (fun _ _ => 1)
    (fun _ _ _ => 1) (fun _ _ => 1) exX2 exEdgeSelfLoop0 1 hi).2 0
  simpa [exBias1] using h

/-- Helper for C1: the IMP2 output entry `(0, 0)` on the two-node full graph with
`W = 1`, `a_src = 1`, `a_trg = 0`, zero bias, identity activation and dropout
disabled.  `scores_source` is broadcast along the column axis, so every column of a
row scores identically and the masked softmax is uniform: the output is the plain
average `(x₀ + x₁) / 2 = 1 / 2`. -/
theorem c1_imp2_value :
    (imp2Forward exOnes11 exOnes11 exZeros11 exBias1 id (fun _ _ => 1) (fun _ _ _ => 1)
        (fun _ _ _ => 1) exX2 exFullMask2).1 0 0 = 1 / 2 := by
  simp [imp2Forward, imp2OutReshaped, imp2AllScores, imp2TrgScoresReshaped,
    denseMaskedSoftmax, projectedFeatures, linearProjView, scoreWith, leakyReLU,
    unflatH, unflatF, flatIdx, exOnes11, exZeros11, exBias1, exX2, exFullMask2,
    Fin.sum_univ_two, Fin.sum_univ_one]

/-- Helper for C1: the global maximum of the per-edge scores on the same input is 1
(attained by the edges with source node 1). -/
theorem c1_globalMax_value :
    globalMax (imp3ScoresPerEdge exOnes11 exOnes11 exZeros11 (fun _ _ => 1) (fun _ _ _ => 1)
      exX2 exEdgeIndexFull2) = 1 := by
  have h2 : imp3ScoresPerEdge exOnes11 exOnes11 exZeros11 (fun _ _ => 1) (fun _ _ _ => 1)
      exX2 exEdgeIndexFull2 2 0 = 1 := by
    simp [imp3ScoresPerEdge, projectedFeatures, linearProjView, scoreWith, leakyReLU,
      exOnes11, exZeros11, exX2, exEdgeIndexFull2, flatIdx, Fin.sum_univ_one]
  unfold globalMax
  apply le_antisymm
  · apply Finset.sup'_le
    intro p _
    fin_cases p <;>
      simp [imp3ScoresPerEdge, projectedFeatures, linearProjView, scoreWith, leakyReLU,
        exOnes11, exZeros11, exX2, exEdgeIndexFull2, flatIdx, Fin.sum_univ_one]
  · have hle := Finset.le_sup'
      (fun q : Fin 4 × Fin 1 => imp3ScoresPerEdge exOnes11 exOnes11 exZeros11 (fun _ _ => 1)
        (fun _ _ _ => 1) exX2 exEdgeIndexFull2 q.1 q.2)
      (Finset.mem_univ ((2 : Fin 4), (0 : Fin 1)))
    simpa [h2] using hle

/-- Helper for C1: the IMP3 output entry `(0, 0)` on the same graph and parameters.
The neighborhood softmax weights node 0's two incoming edges by their source scores,
giving `1 / (exp (-1) + 1 + 1e-16)` — not the dense variant's `1 / 2`. -/
theorem c1_imp3_value :
    (imp3Forward exOnes11 exOnes11 exZeros11 exBias1 id (fun _ _ => 1) (fun _ _ _ => 1)
        (fun _ _ => 1) exX2 exEdgeIndexFull2).1 0 0 =
      1 / (Real.exp (-1) + 1 + gatEps) := by
  have hmax : globalMax (imp3ScoresPerEdge exOnes11 exOnes11 exZeros11 (fun _ _ => (1 : ℝ))
      (fun _ _ _ => (1 : ℝ)) exX2 ⟨![0, 0, 1, 1], ![0, 1, 0, 1]⟩) = 1 := by
    have h0 := c1_globalMax_value
    simpa [exEdgeIndexFull2] using h0
  simp [imp3Forward, imp3Aggregate, neighborhoodAwareSoftmax, expShiftedScores,
    sumEdgeScoresNeighborhoodAware, hmax, imp3ScoresPerEdge, projectedFeatures,
    linearProjView, scoreWith, leakyReLU, unflatH, unflatF, flatIdx,
    exOnes11, exZeros11, exBias1, exX2, exEdgeIndexFull2,
    Fin.sum_univ_four, Fin.sum_univ_one]

/-- C1 failing input: the same two-node graph presented as the full dense mask
`exFullMask2` and as the equivalent edge list `exEdgeIndexFull2` (first conjunct:
the mask has a 0-entry `(i, j)` exactly where the edge list has an edge `j → i`),
with identical parameters (`W = 1`, `a_src = 1`, `a_trg = 0`, zero bias, identity
activation) and dropout disabled.  The dense IMP2 forward and the sparse IMP3
forward disagree on output entry `(0, 0)`: `1/2` versus `≈ 0.731` — far beyond any
floating tolerance, because IMP2 places the source scores on the target axis (and,
for several heads, scrambles the target scores by `reshape`), while IMP3 scores each
edge by `LeakyReLU(score_src[src] + score_trg[trg])`. -/
theorem c1_dense_sparse_divergence :
    (∀ i j : Fin 2, exFullMask2 i j = true ↔
      ∃ e, exEdgeIndexFull2.src e = j ∧ exEdgeIndexFull2.trg e = i) ∧
    (imp2Forward exOnes11 exOnes11 exZeros11 exBias1 id (fun _ _ => 1) (fun _ _ _ => 1)
        (fun _ _ _ => 1) exX2 exFullMask2).1 0 0 ≠
      (imp3Forward exOnes11 exOnes11 exZeros11 exBias1 id (fun _ _ => 1) (fun _ _ _ => 1)
        (fun _ _ => 1) exX2 exEdgeIndexFull2).1 0 0 := by
  constructor
  · decide
  · rw [c1_imp2_value, c1_imp3_value]
    have h2 : (2 : ℝ) < Real.exp 1 := by
      have h := Real.add_one_lt_exp (one_ne_zero : (1 : ℝ) ≠ 0)
      linarith
    have hexp : Real.exp (-1) < 1 / 2 := by
      rw [Real.exp_neg]
      calc (Real.exp 1)⁻¹ < 2⁻¹ := inv_strictAnti₀ two_pos h2
        _ = 1 / 2 := by norm_num
    have heps1 : (0 : ℝ) < gatEps := by norm_num [gatEps]
    have heps2 : gatEps < 1 / 4 := by norm_num [gatEps]
    have hden : 0 < Real.exp (-1) + 1 + gatEps := by positivity
    intro hcontra
    rw [div_eq_div_iff (by norm_num) hden.ne'] at hcontra
    linarith

/-- Helper for C4: the IMP1 output entry `(0, 0)` (head 0) on the two-node full graph
with two heads, all-ones per-head projection, `a_src = 0`, `a_trg` scoring head 0 by
the projected feature, zero bias, identity activation, dropout disabled.  Head 0
weights column `j` by `exp(x_j)`, so the entry is `exp 1 / (1 + exp 1)`. -/
theorem c4_imp1_value :
    (imp1Forward exW2heads exASrc2 exATrg2 exBias2 id (fun _ _ => 1) (fun _ _ _ => 1)
        (fun _ _ _ => 1) exX2 exFullMask2).1 0 0 = Real.exp 1 / (1 + Real.exp 1) := by
  simp [imp1Forward, imp1AllScores, imp1ProjectedFeatures, denseMaskedSoftmax, leakyReLU,
    unflatH, unflatF, exW2heads, exASrc2, exATrg2, exBias2, exX2, exFullMask2,
    Fin.sum_univ_two, Fin.sum_univ_one]

/-- Helper for C4: the IMP2 output entry `(0, 0)` on the corresponding flattened
parameters.  The `reshape` of the `(N, NH, 1)` target scores to `(NH, 1, N)` hands
head 0 the pair `(score_trg[node 0, head 0], score_trg[node 0, head 1]) = (0, 0)`
instead of `(score_trg[node 0, head 0], score_trg[node 1, head 0])`, so head 0's
softmax degenerates to the uniform average and the entry is `1 / 2`. -/
theorem c4_imp2_value :
    (imp2Forward exWflat2 exASrc2 exATrg2 exBias2 id (fun _ _ => 1) (fun _ _ _ => 1)
        (fun _ _ _ => 1) exX2 exFullMask2).1 0 0 = 1 / 2 := by
  simp [imp2Forward, imp2OutReshaped, imp2AllScores, imp2TrgScoresReshaped,
    denseMaskedSoftmax, projectedFeatures, linearProjView, scoreWith, leakyReLU,
    unflatH, unflatF, flatIdx, exWflat2, exASrc2, exATrg2, exBias2, exX2, exFullMask2,
    Fin.sum_univ_two, Fin.sum_univ_one]
  norm_num

/-- C4 failing input: two nodes, two heads, `F_in = F_out = 1`, full dense mask,
IMP1's per-head projection tensor equal to the per-head slices of IMP2's flattened
map (first conjunct), identical scoring vectors, zero bias, identity activation,
dropout disabled.  The two dense variants disagree on output entry `(0, 0)`:
`exp 1 / (1 + exp 1) ≈ 0.731` (IMP1) versus `1 / 2` (IMP2), because IMP2's
`reshape(NH, 1, N)` of the `(N, NH, 1)` target scores and its
`reshape(N, NH, FOUT)` of the `(NH, N, FOUT)` aggregation result reorder the flat
data across the head axis instead of transposing, for every head count ≥ 2. -/
theorem c4_imp1_imp2_divergence :
    (∀ (h : Fin 2) (k f : Fin 1), exW2heads h k f = exWflat2 k (flatIdx h f)) ∧
    (imp1Forward exW2heads exASrc2 exATrg2 exBias2 id (fun _ _ => 1) (fun _ _ _ => 1)
        (fun _ _ _ => 1) exX2 exFullMask2).1 0 0 ≠
      (imp2Forward exWflat2 exASrc2 exATrg2 exBias2 id (fun _ _ => 1) (fun _ _ _ => 1)
        (fun _ _ _ => 1) exX2 exFullMask2).1 0 0 := by
  constructor
  · intro h k f
    simp [exW2heads, exWflat2]
  · rw [c4_imp1_value, c4_imp2_value]
    have h2 : (2 : ℝ) < Real.exp 1 := by
      have h := Real.add_one_lt_exp (one_ne_zero : (1 : ℝ) ≠ 0)
      linarith
    have hden : (0 : ℝ) < 1 + Real.exp 1 := by positivity
    intro hcontra
    rw [div_eq_div_iff hden.ne' (by norm_num)] at hcontra
    linarith

end GATModel
